import Mathlib

/-!
Verification development for the p2p-perf-eval experiment harness.

The Python sources are shallowly embedded:

* `src/src/utils.py`   — `create_network`, `build_image`, `get_free_ports`
* `src/src/mesh.py`    — `NodeInfo`, `Mesh` (deploy / cleanup / accessors),
                         `deploy_peer`, `get_peer_id`, the with-statement usage
* `src/experiments/simple.py` — the cpu-rate poll loop and `get_resource_metrics`
* `src/main.py`        — `analyze_logs`

External effects (the Docker daemon, the operating system's ephemeral-port
assignment, container log streams, HTTP responses) are modelled by an explicit
environment `Env` and an explicit daemon state `DockerState`; Python exceptions
are modelled with `Except`, and a `try/except` that absorbs every exception
becomes a total function.  Real-number arithmetic of the Python floats is
modelled in `ℚ`.  Definitions whose name starts with `spec` transcribe the
wording of the specification / claims (for comparison with the code); every
other definition is translated from the source.
-/

deriving instance DecidableEq for Except

namespace P2PEval

/-! ## Python string primitives -/

/-- Whitespace characters recognised by Python's `str.strip` / `str.split`. -/
def isWsChar (c : Char) : Bool :=
  c == ' ' || c == '\t' || c == '\n' || c == '\r' || c == '\x0b' || c == '\x0c'

/-- Strips leading and trailing whitespace from a character list. -/
def pyStripL (cs : List Char) : List Char :=
  ((cs.dropWhile isWsChar).reverse.dropWhile isWsChar).reverse

/-- Embeds Python `s.strip()`. -/
def pyStrip (s : String) : String := String.mk (pyStripL s.data)

/-- Splits at every newline character, keeping a final empty piece, like
Python `s.split("\n")` (so the result is never empty). -/
def splitNlAux : List Char → List Char → List String
  | [], acc => [String.mk acc.reverse]
  | c :: cs, acc =>
      if c == '\n' then String.mk acc.reverse :: splitNlAux cs [] else splitNlAux cs (c :: acc)

/-- Embeds Python `s.split("\n")`. -/
def splitNl (s : String) : List String := splitNlAux s.data []

/-- Splits at every newline, dropping the piece after a final newline, like
Python `s.splitlines()` on newline-terminated text. -/
def splitlinesAux : List Char → List Char → List String
  | [], [] => []
  | [], acc => [String.mk acc.reverse]
  | c :: cs, acc =>
      if c == '\n' then String.mk acc.reverse :: splitlinesAux cs []
      else splitlinesAux cs (c :: acc)

/-- Embeds Python `s.splitlines()` (newline-delimited responses). -/
def splitlines (s : String) : List String := splitlinesAux s.data []

/-- Splits on runs of whitespace, discarding empty pieces, like Python
`s.split()` with no argument. -/
def wordsAux : List Char → List Char → List String
  | [], acc => if acc.isEmpty then [] else [String.mk acc.reverse]
  | c :: cs, acc =>
      if isWsChar c then
        if acc.isEmpty then wordsAux cs [] else String.mk acc.reverse :: wordsAux cs []
      else wordsAux cs (c :: acc)

/-- Embeds Python `s.split()`. -/
def pySplit (s : String) : List String := wordsAux s.data []

/-- Whether the first list begins with the second one. -/
def listStartsWith : List Char → List Char → Bool
  | _, [] => true
  | [], _ :: _ => false
  | c :: cs, p :: ps => c == p && listStartsWith cs ps

/-- Embeds Python `s.startswith(p)`. -/
def strStartsWith (s p : String) : Bool := listStartsWith s.data p.data

/-- Numeric value of a digit string (digits are validated separately). -/
def digitsVal (cs : List Char) : Nat :=
  cs.foldl (fun a c => a * 10 + (c.toNat - 48)) 0

/-- Whether every character is a decimal digit. -/
def allDigits (cs : List Char) : Bool := cs.all (fun c => c.isDigit)

/-- Parses an unsigned decimal literal (`12`, `12.5`, `12.`, `.5`). -/
def parseUnsignedFloat? (cs : List Char) : Option ℚ :=
  match cs.splitOn '.' with
  | [ip] => if ip.isEmpty then none
            else if allDigits ip then some ((digitsVal ip : ℚ)) else none
  | [ip, fp] =>
      if ip.isEmpty && fp.isEmpty then none
      else if allDigits ip && allDigits fp then
        some ((digitsVal ip : ℚ) + (digitsVal fp : ℚ) / ((10 : ℚ) ^ fp.length))
      else none
  | _ => none

/-- Embeds Python `float(s)` on the plain decimal literals produced by the
telemetry endpoint; any other token fails (raises `ValueError`), which is
modelled as `none`. -/
def parseFloat? (s : String) : Option ℚ :=
  match s.data with
  | [] => none
  | c :: rest =>
      if c == '-' then (parseUnsignedFloat? rest).map (fun q => -q)
      else if c == '+' then parseUnsignedFloat? rest
      else parseUnsignedFloat? s.data

/-! ## Small association-list dictionary (Python `dict` with string keys) -/

/-- Embeds Python `d[k]` lookup / `k in d`. -/
def dictFind? {α : Type} : List (String × α) → String → Option α
  | [], _ => none
  | (k, v) :: rest, key => if k == key then some v else dictFind? rest key

/-- Embeds Python `d[k] = v`: replaces the binding in place or appends it. -/
def dictInsert {α : Type} : List (String × α) → String → α → List (String × α)
  | [], key, v => [(key, v)]
  | (k, w) :: rest, key, v =>
      if k == key then (key, v) :: rest else (k, w) :: dictInsert rest key v

/-! ## Telemetry parsing — `get_resource_metrics` of `src/experiments/simple.py` -/

/-- Mapping of metric name to parsed value (the `results` dict). -/
abbrev MetricDict := List (String × ℚ)

/-- The whitelist of metric names, in source order. -/
def metric_names : List String :=
  ["process_cpu_seconds_total", "go_memstats_alloc_bytes", "go_goroutines"]

/-- Embeds the inner `for metric_name in metric_names` loop of
`get_resource_metrics`: the first whitelisted name that is a string prefix of
the line wins, the line's last whitespace-separated token is parsed with
`float` and stored under that name, then the loop breaks; a `float` failure
is the `ValueError` that propagates out of the whole line loop (`.error`). -/
def matchLine (results : MetricDict) (line : String) : List String → Except Unit MetricDict
  | [] => .ok results
  | name :: rest =>
      if strStartsWith line name then
        match (pySplit line).getLast? with
        | some tok =>
            match parseFloat? tok with
            | some v => .ok (dictInsert results name v)
            | none => .error ()
        | none => matchLine results line rest
      else matchLine results line rest

/-- Embeds the `for line in lines` loop of `get_resource_metrics`: comment
lines and blank lines are skipped; the surrounding `try` means the first
`ValueError` aborts the whole loop. -/
def parseLoop (results : MetricDict) : List String → Except Unit MetricDict
  | [] => .ok results
  | line :: rest =>
      if strStartsWith line "#" || pyStrip line == "" then parseLoop results rest
      else
        match matchLine results line metric_names with
        | .error e => .error e
        | .ok results2 => parseLoop results2 rest

/-- Embeds `get_resource_metrics`: the argument is the HTTP response body, or
`none` when the endpoint is unreachable (`requests.RequestException`).  A
parse `ValueError` is caught at function level and yields `None`; so does an
incomplete set of whitelisted metrics. -/
def get_resource_metrics (response : Option String) : Option MetricDict :=
  match response with
  | none => none
  | some text =>
      match parseLoop [] (splitlines text) with
      | .error _ => none
      | .ok results =>
          if results.length = metric_names.length then some results else none

/-- Embeds the first name of `metric_names` that is a string prefix of the
line (the name the inner loop would store under). -/
def findMatchAux (line : String) : List String → Option String
  | [] => none
  | n :: rest => if strStartsWith line n then some n else findMatchAux line rest

/-- First whitelisted metric name matching a line by string prefix. -/
def findMatch (line : String) : Option String := findMatchAux line metric_names

/-- Whether a line is a non-comment, non-blank line whose first whitelist
match is `name` (the lines claim C10 calls matches for `name`). -/
def lineHit (name : String) (l : String) : Bool :=
  !(strStartsWith l "#") && !(pyStrip l == "") && (findMatch l == some name)

/-- The last line of the list that hits `name` (spec-side description). -/
def specLastHit (name : String) : List String → Option String
  | [] => none
  | l :: rest =>
      match specLastHit name rest with
      | some x => some x
      | none => if lineHit name l then some l else none

/-- Spec-side value for `name`: the parsed last token of the last matching
line. -/
def specLastMatchValue (name : String) (lines : List String) : Option ℚ :=
  (specLastHit name lines).bind (fun l => ((pySplit l).getLast?).bind parseFloat?)

/-- Modelled from the spec: the per-line failure policy asserted by claim C8 —
a line whose value does not parse is dropped by itself and parsing continues
with the remaining lines.  Used only to exhibit the divergence from
`get_resource_metrics`, which instead aborts the whole parse. -/
def specMetricsParse (results : MetricDict) : List String → MetricDict
  | [] => results
  | line :: rest =>
      if strStartsWith line "#" || pyStrip line == "" then specMetricsParse results rest
      else
        match findMatch line with
        | none => specMetricsParse results rest
        | some name =>
            match ((pySplit line).getLast?).bind parseFloat? with
            | some v => specMetricsParse (dictInsert results name v) rest
            | none => specMetricsParse results rest

/-! ## The cpu-rate poll loop of `src/experiments/simple.py` -/

/-- One successful poll observation: the instance's container name, its
`process_cpu_seconds_total` counter and the rounded elapsed time of the tick.
Instances whose poll returned no data produce no entry (`continue`). -/
structure PollEntry where
  node_name : String
  cpu : ℚ
  t : ℤ
deriving DecidableEq

/-- Default used only for out-of-range list access in statements. -/
def pollDefault : PollEntry := { node_name := "", cpu := 0, t := 0 }

/-- The `last_poll_cpu` dictionary: name ↦ (last counter value, last time). -/
abbrev CpuDict := List (String × (ℚ × ℤ))

/-- Embeds one iteration of the poll body for one instance: `cpu_rate = 0.0`;
if the name has a previous sample and the time delta is positive, the rate is
the counter delta over the time delta; then `last_poll_cpu[name]` is updated. -/
def cpuRateStep (last : CpuDict) (e : PollEntry) : ℚ × CpuDict :=
  let rate : ℚ :=
    match dictFind? last e.node_name with
    | none => 0
    | some lv => if e.t - lv.2 > 0 then (e.cpu - lv.1) / ((e.t - lv.2 : ℤ) : ℚ) else 0
  (rate, dictInsert last e.node_name (e.cpu, e.t))

/-- Runs the poll body over a trace of observations, threading the shared
`last_poll_cpu` dictionary and emitting the `cpu_rate` of each appended
sample, in order. -/
def pollRunAux (last : CpuDict) : List PollEntry → List ℚ
  | [] => []
  | e :: rest =>
      let r := cpuRateStep last e
      r.1 :: pollRunAux r.2 rest

/-- The cpu rates the loop derives for a trace, starting from the empty
dictionary (loop start). -/
def pollRun (es : List PollEntry) : List ℚ := pollRunAux [] es

/-- Spec-side description: the most recent earlier sample of the *same*
instance (by name) in a trace segment. -/
def specLastSample : List PollEntry → String → Option (ℚ × ℤ)
  | [], _ => none
  | e :: rest, name =>
      match specLastSample rest name with
      | some v => some v
      | none => if e.node_name == name then some (e.cpu, e.t) else none

/-- Spec-side rate formula of claim C6: `(counterₜ − counterₜ₋₁) / (tₜ − tₜ₋₁)`
against the instance's own previous sample, only when the time delta is
positive; no previous sample gives rate 0. -/
def specRate (prev : Option (ℚ × ℤ)) (e : PollEntry) : ℚ :=
  match prev with
  | none => 0
  | some lv => if e.t - lv.2 > 0 then (e.cpu - lv.1) / ((e.t - lv.2 : ℤ) : ℚ) else 0

/-- Proof-side combination: previous sample in the segment, else the incoming
dictionary. -/
def auxPrev (last : CpuDict) (seg : List PollEntry) (name : String) : Option (ℚ × ℤ) :=
  match specLastSample seg name with
  | some v => some v
  | none => dictFind? last name

/-! ## The event correlator — `analyze_logs` of `src/main.py` -/

/-- One parsed structured log record, with the `container_name` the code
attaches after `json.loads`. -/
structure LogEvent where
  container_name : String
  event : String
  msg_id : Int
  timestamp_ns : Int
deriving DecidableEq

/-- One raw log line: either text that `json.loads` rejects, or a structured
event record with the fields the correlator reads. -/
inductive LogLine where
  | junk (raw : String)
  | record (event : String) (msg_id : Int) (timestamp_ns : Int)
deriving DecidableEq

/-- Embeds `json.loads(line)` plus the `container_name` tagging; lines that
fail to parse are skipped by the `except JSONDecodeError: continue`. -/
def parseLine (cname : String) : LogLine → Option LogEvent
  | .junk _ => none
  | .record e m t => some { container_name := cname, event := e, msg_id := m, timestamp_ns := t }

/-- Embeds the log-collection loop of `analyze_logs`: containers are visited
in order and each container's parseable lines are appended in order. -/
def collectLogs : List (String × List LogLine) → List LogEvent
  | [] => []
  | c :: rest => c.2.filterMap (parseLine c.1) ++ collectLogs rest

/-- The broadcast rows, in order (`df[df["event"] == "message_broadcast"]`). -/
def broadcastsOf (logs : List LogEvent) : List LogEvent :=
  logs.filter (fun e => e.event == "message_broadcast")

/-- The received rows sharing a message id
(`df[(df["event"] == "message_received") & (df["msg_id"] == msg_id)]`). -/
def receivedOf (logs : List LogEvent) (mid : Int) : List LogEvent :=
  logs.filter (fun e => e.event == "message_received" && e.msg_id == mid)

/-- Embeds `analyze_logs`: `None` when nothing parsed, no broadcast row, or no
matching received row; otherwise the latencies `(ts − broadcast_ts) / 1e6` of
the received rows sharing the *first* broadcast's `msg_id`, keeping only the
non-negative ones. -/
def analyze_logs (containers : List (String × List LogLine)) : Option (List ℚ) :=
  let all_logs := collectLogs containers
  if all_logs = [] then none
  else
    match broadcastsOf all_logs with
    | [] => none
    | b :: _ =>
        let received := receivedOf all_logs b.msg_id
        if received = [] then none
        else
          let lat := received.map
            (fun e => ((e.timestamp_ns - b.timestamp_ns : ℤ) : ℚ) / 1000000)
          some (lat.filter (fun q => decide (0 ≤ q)))

/-- Whether a line parses as a structured record. -/
def isRecordLine : LogLine → Bool
  | .junk _ => false
  | .record _ _ _ => true

/-- The same container logs with the unparseable lines removed. -/
def stripJunk (cs : List (String × List LogLine)) : List (String × List LogLine) :=
  cs.map (fun c => (c.1, c.2.filter isRecordLine))

/-! ## Docker model and the `Mesh` lifecycle of `src/src/mesh.py` -/

/-- Module-level constants of `src/src/mesh.py`. -/
def IMAGE_NAME : String := "go-p2p-node"

/-- Name of the private Docker network. -/
def NETWORK_NAME : String := "p2p-test-network"

/-- Fixed reserved container name of the bootstrap node. -/
def BOOTSTRAP_NAME : String := "bootstrap-node"

/-- Path of the node binary's build context. -/
def DOCKERFILE_PATH : String := "./go-p2p"

/-- The fixed libp2p listen port baked into the bootstrap address. -/
def P2P_PORT : Nat := 4001

/-- A container tracked by the daemon: the arguments `client.containers.run`
received, plus the log text the process emits (supplied by the environment). -/
structure DContainer where
  name : String
  image : String
  command : List String
  portMap : List (Nat × Nat)
  netName : String
  logs : String
deriving DecidableEq

/-- Default used only for out-of-range list access in statements. -/
def cDefault : DContainer :=
  { name := "", image := "", command := [], portMap := [], netName := "", logs := "" }

/-- The external Docker daemon state: running containers and networks. -/
structure DockerState where
  containers : List DContainer
  networks : List String
deriving DecidableEq

/-- The empty daemon state a fresh experiment run starts from. -/
def dEmpty : DockerState := { containers := [], networks := [] }

/-- External nondeterminism: the log text a container with a given name will
emit, the port the operating system hands out at the i-th bind probe, and
whether the daemon fails a stop or a network removal with a non-NotFound
error. -/
structure Env where
  logsOf : String → String
  osPorts : Nat → Nat
  stopFails : String → Bool
  netRemoveFails : String → Bool

/-- An environment in which every daemon teardown operation succeeds (the
claims' "normal" runs). -/
def Env.allSuccess (env : Env) : Prop :=
  env.stopFails = (fun _ => false) ∧ env.netRemoveFails = (fun _ => false)

/-- Python exceptions the embedded code can raise. -/
inductive PyError where
  | runtimeError (msg : String)
  | valueError (msg : String)
deriving DecidableEq

/-- Severity of an emitted log record. -/
inductive LogLevel
  | info
  | warning
  | error
deriving DecidableEq

/-- One record emitted through the `logging` module. -/
structure LogMsg where
  level : LogLevel
  msg : String
deriving DecidableEq

/-- Embeds `utils.create_network`: a stale network of the same name is removed
first (`NotFound` is passed over, and removal of an absent name is the same
filter), then the network is created; the handle is its name. -/
def create_network (d : DockerState) (name : String) : String × DockerState :=
  let d1 : DockerState := { d with networks := d.networks.filter (fun n => n != name) }
  (name, { d1 with networks := d1.networks ++ [name] })

/-- Embeds `utils.build_image`: a pure pass-through to the external build
service; the image handle is modelled by its tag. -/
def build_image (img_name : String) : String := img_name

/-- Embeds `utils.get_free_ports`: `count` successive bind-and-release probes;
`os i` is the port the host hands out at probe `i` (each probing socket is
closed before the next probe, so nothing relates the answers).  The final
length check mirrors the source's `ValueError` guard. -/
def get_free_ports (os : Nat → Nat) (count : Nat) : Except PyError (List Nat) :=
  let ports := (List.range count).map os
  if ports.length ≠ count then
    .error (.valueError ("Failed to find " ++ toString count ++ " free ports"))
  else .ok ports

/-- Holds information about a running node container (`NodeInfo` dataclass). -/
structure NodeInfo where
  container : DContainer
  api_port : Nat
  metrics_port : Nat
deriving DecidableEq

/-- Default used only for out-of-range list access in statements. -/
def nDefault : NodeInfo := { container := cDefault, api_port := 0, metrics_port := 0 }

/-- Embeds `deploy_peer`: builds the role-specific argument vector (a falsy
`bootstrap_peer_id` means this is the bootstrap, which gets the fixed reserved
name; a peer is named after its api port and additionally gets the bootstrap
address embedding `BOOTSTRAP_NAME`, the fixed `P2P_PORT` and the peer id),
evicts any stale same-named container, and starts the new container. -/
def deploy_peer (d : DockerState) (env : Env) (image : String) (network : String)
    (metrics_port api_port : Nat) (bootstrap_peer_id : Option String) :
    DContainer × DockerState :=
  let command := ["-ap", toString api_port, "-mp", toString metrics_port, "-hi", "0.0.0.0"]
  let nc : String × List String :=
    match bootstrap_peer_id with
    | none => (BOOTSTRAP_NAME, command)
    | some pid =>
        if pid == "" then (BOOTSTRAP_NAME, command)
        else
          ("p2p-peer-node-" ++ toString api_port,
           command ++
             ["-bp", "/dns4/" ++ BOOTSTRAP_NAME ++ "/tcp/" ++ toString P2P_PORT ++
                     "/p2p/" ++ pid ++ "/"])
  let cont : DContainer :=
    { name := nc.1, image := image, command := nc.2,
      portMap := [(api_port, api_port), (metrics_port, metrics_port)],
      netName := network, logs := env.logsOf nc.1 }
  (cont, { d with containers := d.containers.filter (fun c => c.name != nc.1) ++ [cont] })

/-- Embeds `get_peer_id`: the container's (eventual) log text is polled; the
first line of the stripped output is the peer id when it carries the `12D`
identity prefix, otherwise the poll times out and yields `None`. -/
def get_peer_id (logs : String) : Option String :=
  if logs == "" then none
  else
    match splitNl (pyStrip logs) with
    | [] => none
    | l0 :: _ => if strStartsWith l0 "12D" then some (pyStrip l0) else none

/-- Manages the lifecycle of the entire P2P Docker network (`Mesh`). -/
structure Mesh where
  image_name : String
  network_name : String
  num_peers : Nat
  dockerfile_path : String
  network : Option String
  nodes : List NodeInfo
deriving DecidableEq

/-- Embeds `Mesh.__init__`: no side effects, empty tracking state. -/
def Mesh.init (image_name network_name : String) (num_peers : Nat)
    (dockerfile_path : String) : Mesh :=
  { image_name := image_name, network_name := network_name, num_peers := num_peers,
    dockerfile_path := dockerfile_path, network := none, nodes := [] }

/-- A fresh mesh with the module's constants and `p` peers. -/
def mkFresh (p : Nat) : Mesh := Mesh.init IMAGE_NAME NETWORK_NAME p DOCKERFILE_PATH

/-- Embeds the peer-deployment loop of `Mesh.deploy`
(`for i in range(self.num_peers)`): ports at index `i + 1`, each peer given
the bootstrap peer id, each appended to `self.nodes`. -/
def deployPeersAux (env : Env) (image network pid : String)
    (api_ports metrics_ports : List Nat) :
    List Nat → DockerState → List NodeInfo → DockerState × List NodeInfo
  | [], d, ns => (d, ns)
  | i :: rest, d, ns =>
      let api_port := api_ports.getD (i + 1) 0
      let metrics_port := metrics_ports.getD (i + 1) 0
      let pr := deploy_peer d env image network metrics_port api_port (some pid)
      deployPeersAux env image network pid api_ports metrics_ports rest pr.2
        (ns ++ [{ container := pr.1, api_port := api_port, metrics_port := metrics_port }])

/-- Embeds `Mesh.deploy`: network, image, 2×(peers+1) ports, bootstrap launch
(tracked immediately), peer id resolution (a falsy id raises `RuntimeError`
— note `self.network` and the bootstrap node are already recorded on `self`
by then), then the peer loop.  On an exception the partially mutated mesh and
daemon state are carried in the error. -/
def Mesh.deploy (m : Mesh) (env : Env) (d : DockerState) :
    Except (PyError × Mesh × DockerState) (Mesh × DockerState) :=
  let nd := create_network d m.network_name
  let m1 : Mesh := { m with network := some nd.1 }
  let image := build_image m.image_name
  let total := m.num_peers + 1
  match get_free_ports env.osPorts total with
  | .error e => .error (e, m1, nd.2)
  | .ok api_ports =>
    match get_free_ports (fun i => env.osPorts (total + i)) total with
    | .error e => .error (e, m1, nd.2)
    | .ok metrics_ports =>
        let bootstrap_api_port := api_ports.getD 0 0
        let bootstrap_metrics_port := metrics_ports.getD 0 0
        let br := deploy_peer nd.2 env image nd.1 bootstrap_metrics_port bootstrap_api_port none
        let m2 : Mesh :=
          { m1 with nodes := m1.nodes ++
              [{ container := br.1, api_port := bootstrap_api_port,
                 metrics_port := bootstrap_metrics_port }] }
        match get_peer_id br.1.logs with
        | none => .error (.runtimeError "Failed to retrieve bootstrap peer ID.", m2, br.2)
        | some pid =>
            if pid == "" then
              .error (.runtimeError "Failed to retrieve bootstrap peer ID.", m2, br.2)
            else
              let res := deployPeersAux env image nd.1 pid api_ports metrics_ports
                (List.range m.num_peers) br.2 m2.nodes
              .ok ({ m2 with nodes := res.2 }, res.1)

/-- Embeds `NodeInfo.cleanup`: stop + remove inside a `try`; `NotFound` is
logged as a warning, any other daemon failure as an error; nothing is ever
re-raised (the function is total). -/
def NodeInfo.cleanup (n : NodeInfo) (env : Env) (d : DockerState) :
    DockerState × List LogMsg :=
  if d.containers.any (fun c => c.name == n.container.name) then
    if env.stopFails n.container.name then
      (d, [{ level := .error, msg := "Error cleaning up container " ++ n.container.name }])
    else
      ({ d with containers := d.containers.filter (fun c => c.name != n.container.name) },
       [{ level := .info, msg := "Stopped and removed container: " ++ n.container.name }])
  else
    (d, [{ level := .warning,
           msg := "Container " ++ n.container.name ++ " not found for cleanup, already removed." }])

/-- Embeds the `for node in self.nodes` loop of `Mesh.cleanup`: every tracked
node is processed in order, whatever each teardown's outcome. -/
def cleanupNodes (env : Env) : List NodeInfo → DockerState → List LogMsg →
    DockerState × List LogMsg
  | [], d, logs => (d, logs)
  | n :: rest, d, logs =>
      let r := NodeInfo.cleanup n env d
      cleanupNodes env rest r.1 (logs ++ r.2)

/-- Embeds `Mesh.cleanup`: tears down every tracked container, then the
network if one is recorded, with the same absorb-all error policy.  The
method never touches `self.nodes` or `self.network`, so no mesh is returned:
the caller's record list and network handle survive unchanged. -/
def Mesh.cleanup (m : Mesh) (env : Env) (d : DockerState) : DockerState × List LogMsg :=
  let start : List LogMsg := [{ level := .info, msg := "Cleaning up P2P mesh resources..." }]
  let r := cleanupNodes env m.nodes d start
  match m.network with
  | none => r
  | some net =>
      if r.1.networks.any (fun x => x == net) then
        if env.netRemoveFails net then
          (r.1, r.2 ++ [{ level := .error, msg := "Error removing network " ++ m.network_name }])
        else
          ({ r.1 with networks := r.1.networks.filter (fun x => x != net) },
           r.2 ++ [{ level := .info, msg := "Removed network: " ++ m.network_name }])
      else
        (r.1, r.2 ++
          [{ level := .warning,
             msg := "Network " ++ m.network_name ++ " not found for cleanup, already removed." }])

/-- Embeds the `bootstrap_node` property: `self.nodes[0] if self.nodes else None`. -/
def Mesh.bootstrap_node (m : Mesh) : Option NodeInfo :=
  match m.nodes with
  | [] => none
  | n :: _ => some n

/-- Embeds the `peer_nodes` property:
`self.nodes[1:] if len(self.nodes) > 1 else []`. -/
def Mesh.peer_nodes (m : Mesh) : List NodeInfo :=
  if 1 < m.nodes.length then m.nodes.drop 1 else []

/-- Embeds CPython's `with Mesh(...) as mesh: body` over
`Mesh.__enter__ / __exit__`: `__enter__` runs `deploy()` *outside* the
protected region, so an exception it raises propagates without `__exit__`
ever being called; once `__enter__` returns, `__exit__` (which runs
`cleanup()`) is called on both the normal and the exceptional exit of the
body, and a body exception is then re-raised. -/
def pyWith (m : Mesh) (env : Env) (d : DockerState)
    (body : Mesh → DockerState → Except (PyError × DockerState) DockerState) :
    Except (PyError × DockerState) DockerState :=
  match m.deploy env d with
  | .error (e, _, dErr) => .error (e, dErr)
  | .ok (m2, d2) =>
      match body m2 d2 with
      | .ok d3 => .ok (m2.cleanup env d3).1
      | .error (e, d3) => .error (e, (m2.cleanup env d3).1)

/-- A body that does nothing (the experiment body is irrelevant to C1's
mid-deploy failure). -/
def bodyId : Mesh → DockerState → Except (PyError × DockerState) DockerState :=
  fun _ d => .ok d

/-- Containers not tracked by any of the given node records. -/
def notTracked (ns : List NodeInfo) (c : DContainer) : Bool :=
  ns.all (fun n => c.name != n.container.name)

/-- Every daemon container is tracked by one of the node records. -/
def covered (d : DockerState) (ns : List NodeInfo) : Prop :=
  ∀ c ∈ d.containers, ∃ n ∈ ns, n.container.name = c.name

/-- Modelled from the spec (claim C9's address form):
`/dns4/<bootstrap-name>/tcp/<port>/p2p/<identity>/`. -/
def specAddr (name : String) (port : Nat) (pid : String) : String :=
  "/dns4/" ++ name ++ "/tcp/" ++ toString port ++ "/p2p/" ++ pid ++ "/"

/-- The value following the `-bp` flag in an argument vector, if any. -/
def argAfterBp : List String → Option String
  | [] => none
  | [_] => none
  | a :: b :: rest => if a == "-bp" then some b else argAfterBp (b :: rest)

/-! ## Concrete runs used by the closed theorems -/

/-- A run in which the bootstrap prints its identity on the first log line,
the host hands out ports 9000, 9001, ... at successive probes, and every
teardown call succeeds. -/
def env0 : Env :=
  { logsOf := fun n => if n == BOOTSTRAP_NAME then "12Dabc\n" else "peerlog\n",
    osPorts := fun i => 9000 + i,
    stopFails := fun _ => false,
    netRemoveFails := fun _ => false }

/-- A run in which the bootstrap never prints an identity line, so
`get_peer_id` times out and `deploy` raises mid-way. -/
def envBad : Env :=
  { logsOf := fun n => if n == BOOTSTRAP_NAME then "starting\n" else "peerlog\n",
    osPorts := fun i => 9000 + i,
    stopFails := fun _ => false,
    netRemoveFails := fun _ => false }

/-- The bootstrap container of the `env0` run with zero peers. -/
def cB0 : DContainer :=
  { name := BOOTSTRAP_NAME, image := IMAGE_NAME,
    command := ["-ap", "9000", "-mp", "9001", "-hi", "0.0.0.0"],
    portMap := [(9000, 9000), (9001, 9001)], netName := NETWORK_NAME, logs := "12Dabc\n" }

/-- The mesh after a successful `deploy` with zero peers under `env0`. -/
def mOk0 : Mesh :=
  { image_name := IMAGE_NAME, network_name := NETWORK_NAME, num_peers := 0,
    dockerfile_path := DOCKERFILE_PATH, network := some NETWORK_NAME,
    nodes := [{ container := cB0, api_port := 9000, metrics_port := 9001 }] }

/-- The daemon state after that deploy. -/
def dOk0 : DockerState := { containers := [cB0], networks := [NETWORK_NAME] }

/-- The bootstrap container of the `env0` run with one peer. -/
def cB1 : DContainer :=
  { name := BOOTSTRAP_NAME, image := IMAGE_NAME,
    command := ["-ap", "9000", "-mp", "9002", "-hi", "0.0.0.0"],
    portMap := [(9000, 9000), (9002, 9002)], netName := NETWORK_NAME, logs := "12Dabc\n" }

/-- The peer container of the `env0` run with one peer. -/
def cP1 : DContainer :=
  { name := "p2p-peer-node-9001", image := IMAGE_NAME,
    command := ["-ap", "9001", "-mp", "9003", "-hi", "0.0.0.0", "-bp",
                "/dns4/bootstrap-node/tcp/4001/p2p/12Dabc/"],
    portMap := [(9001, 9001), (9003, 9003)], netName := NETWORK_NAME, logs := "peerlog\n" }

/-- The mesh after a successful `deploy` with one peer under `env0`. -/
def mOk1 : Mesh :=
  { image_name := IMAGE_NAME, network_name := NETWORK_NAME, num_peers := 1,
    dockerfile_path := DOCKERFILE_PATH, network := some NETWORK_NAME,
    nodes := [{ container := cB1, api_port := 9000, metrics_port := 9002 },
              { container := cP1, api_port := 9001, metrics_port := 9003 }] }

/-- The daemon state after that deploy. -/
def dOk1 : DockerState := { containers := [cB1, cP1], networks := [NETWORK_NAME] }

/-- The daemon state the `envBad` run leaks: the bootstrap container and the
network are still up when the `RuntimeError` reaches the caller. -/
def dLeak : DockerState :=
  { containers := [{ name := BOOTSTRAP_NAME, image := IMAGE_NAME,
                     command := ["-ap", "9000", "-mp", "9002", "-hi", "0.0.0.0"],
                     portMap := [(9000, 9000), (9002, 9002)], netName := NETWORK_NAME,
                     logs := "starting\n" }],
    networks := [NETWORK_NAME] }

/-- The correlation example of claim C7: one broadcast `(msgId 7, ts 1000)`
and received events `(7, 1500)`, `(7, 900)`, `(9, 2000)`, plus one
unparseable line. -/
def exC7 : List (String × List LogLine) :=
  [("c0", [LogLine.junk "boot msg", LogLine.record "message_broadcast" 7 1000]),
   ("c1", [LogLine.record "message_received" 7 1500]),
   ("c2", [LogLine.record "message_received" 7 900,
           LogLine.record "message_received" 9 2000])]

/-- The first broadcast row of `exC7`. -/
def bEx : LogEvent :=
  { container_name := "c0", event := "message_broadcast", msg_id := 7, timestamp_ns := 1000 }

/-- The counter trace of claim C6: values 10, 25, 47 at times 0, 5, 10 for a
single instance. -/
def esC6 : List PollEntry :=
  [{ node_name := "node", cpu := 10, t := 0 },
   { node_name := "node", cpu := 25, t := 5 },
   { node_name := "node", cpu := 47, t := 10 }]

/-- Telemetry lines for claim C10: a whitelisted line followed by a strict
prefix-extension line whose value must overwrite it. -/
def lns10 : List String := ["go_goroutines 42", "go_goroutines_gc 7"]

/-- What `parseLoop` produces on `lns10`. -/
def r10 : MetricDict := [("go_goroutines", (7 : ℚ))]

/-- Telemetry text for claim C8: an unparseable value line followed by valid
lines for all three whitelisted metrics. -/
def tBad : String :=
  "go_goroutines oops\nprocess_cpu_seconds_total 1\ngo_memstats_alloc_bytes 2\ngo_goroutines 42"

/-! ## Theorems -/

/-- Claim C5 (amended): for every k ≥ 0 the port allocator returns exactly
the k ports the host handed out at the k probes — never fewer than requested,
and the length-check failure (the source's `ValueError`; no `AllocationError`
exists) is unreachable.  Pairwise distinctness is not part of this statement
because the code does not provide it (see the counterexample). -/
theorem C5_ports_exact (os : Nat → Nat) (k : Nat) :
    get_free_ports os k = Except.ok ((List.range k).map os) ∧
    ((List.range k).map os).length = k := by
  refine ⟨?_, by simp⟩
  simp [get_free_ports]

/-- Claim C5, counterexample: each probing socket is closed before the next
probe, so the host may hand out the same free port twice; the allocator then
returns a non-pairwise-distinct batch instead of failing, contradicting the
claim that exactly k pairwise-distinct ports are returned or an
`AllocationError` is raised. -/
theorem C5_counterexample :
    get_free_ports (fun _ => 5000) 2 = Except.ok [5000, 5000] ∧
    ¬ List.Pairwise (fun a b => a ≠ b) [5000, 5000] := by
  exact ⟨by decide, by decide⟩

/-- Claim C9 (amended): every peer launched with a non-falsy bootstrap peer
id receives a bootstrap address embedding the bootstrap's logical network
name (`BOOTSTRAP_NAME`), the *fixed* libp2p port `P2P_PORT` — not the
bootstrap's allocated control port — and the resolved identity. -/
theorem C9_peer_address (d : DockerState) (env : Env) (image network : String)
    (mp ap : Nat) (pid : String) (h : pid ≠ "") :
    (deploy_peer d env image network mp ap (some pid)).1.command =
      ["-ap", toString ap, "-mp", toString mp, "-hi", "0.0.0.0",
       "-bp", specAddr BOOTSTRAP_NAME P2P_PORT pid] ∧
    (deploy_peer d env image network mp ap (some pid)).1.name =
      "p2p-peer-node-" ++ toString ap := by
  have hb : (pid == "") = false := by simp [h]
  constructor <;> simp [deploy_peer, hb, specAddr]

/-- Witness for C9_peer_address at a concrete peer launch. -/
theorem C9_peer_address_witness :
    "12Dabc" ≠ "" ∧
    ((deploy_peer dEmpty env0 IMAGE_NAME NETWORK_NAME 8 7 (some "12Dabc")).1.command =
      ["-ap", toString 7, "-mp", toString 8, "-hi", "0.0.0.0",
       "-bp", specAddr BOOTSTRAP_NAME P2P_PORT "12Dabc"] ∧
     (deploy_peer dEmpty env0 IMAGE_NAME NETWORK_NAME 8 7 (some "12Dabc")).1.name =
      "p2p-peer-node-" ++ toString 7) :=
  ⟨by decide, C9_peer_address dEmpty env0 IMAGE_NAME NETWORK_NAME 8 7 "12Dabc" (by decide)⟩

/-- Claim C9, counterexample: in a deployed two-node mesh whose bootstrap was
allocated control (api) port 9000, the peer's `-bp` address embeds the fixed
port 4001, so the address does not have the claimed form
`/dns4/<bootstrap-name>/tcp/<controlPort>/p2p/<identity>/`. -/
theorem C9_counterexample :
    Mesh.deploy (mkFresh 1) env0 dEmpty = Except.ok (mOk1, dOk1) ∧
    (mOk1.nodes.getD 0 nDefault).api_port = 9000 ∧
    argAfterBp (dOk1.containers.getD 1 cDefault).command =
      some (specAddr BOOTSTRAP_NAME P2P_PORT "12Dabc") ∧
    specAddr BOOTSTRAP_NAME P2P_PORT "12Dabc" ≠ specAddr BOOTSTRAP_NAME 9000 "12Dabc" := by
  refine ⟨by decide, by decide, by decide, by decide⟩

/-- Claim C8 (amended): `go_goroutines 42` parses to the entry 42; a comment
line yields no entries; an unreachable endpoint yields no data rather than an
error, as does a response missing expected metrics; but a line with a missing
or unparseable value raises the `ValueError` that the function-level handler
turns into `None`, aborting the remaining lines and dropping the whole
sample — the failure is not limited to that line. -/
theorem C8_metrics_parsing :
    parseLoop [] ["go_goroutines 42"] = Except.ok [("go_goroutines", (42 : ℚ))] ∧
    parseLoop [] ["# HELP foo"] = Except.ok [] ∧
    get_resource_metrics none = none ∧
    get_resource_metrics (some "go_goroutines 42") = none ∧
    parseLoop [] ["go_goroutines", "process_cpu_seconds_total 1"] = Except.error () ∧
    get_resource_metrics (some tBad) = none := by
  refine ⟨by decide, by decide, rfl, by decide, by decide, by decide⟩

/-- Claim C8, counterexample: on a response whose first metric line has an
unparseable value and whose later lines carry all three whitelisted metrics,
the code returns `None` (the whole parse aborts), while the claimed per-line
failure policy (transcribed as `specMetricsParse`) would parse all three
later lines. -/
theorem C8_counterexample :
    get_resource_metrics (some tBad) = none ∧
    specMetricsParse [] (splitlines tBad) =
      [("process_cpu_seconds_total", (1 : ℚ)), ("go_memstats_alloc_bytes", 2),
       ("go_goroutines", 42)] ∧
    get_resource_metrics (some tBad) ≠ some (specMetricsParse [] (splitlines tBad)) := by
  refine ⟨by decide, by decide, by decide⟩

/-- Claim C1 (code bug exhibit): under the with-statement usage, when the
bootstrap never prints its identity line, `deploy` raises inside
`__enter__`, CPython never calls `__exit__`, and the exception reaches the
caller with the bootstrap container and the network still up — `cleanup`
ran on no resource. -/
theorem C1_enter_failure_skips_cleanup :
    pyWith (mkFresh 1) envBad dEmpty bodyId =
      Except.error (PyError.runtimeError "Failed to retrieve bootstrap peer ID.", dLeak) ∧
    dLeak.containers.map DContainer.name = [BOOTSTRAP_NAME] ∧
    dLeak.networks = [NETWORK_NAME] := by
  refine ⟨by decide, by decide, by decide⟩

/-- Claim C2, counterexample: after `deploy()` (N = 0) immediately followed
by `cleanup()` the external state is fully torn down, but `cleanup` writes
nothing to the mesh object — its `nodes` list still tracks one instance and
its `network` attribute still holds the handle, contradicting "zero tracked
instances and no network handle". -/
theorem C2_counterexample :
    Mesh.deploy (mkFresh 0) env0 dEmpty = Except.ok (mOk0, dOk0) ∧
    (Mesh.cleanup mOk0 env0 dOk0).1 = dEmpty ∧
    mOk0.nodes.length = 1 ∧
    mOk0.network = some NETWORK_NAME := by
  refine ⟨by decide, by decide, by decide, by decide⟩

/-- Claim C7, counterexample: on the claim's own example the single returned
latency is (1500 − 1000) / 1e6 = 0.0005 ms, not the claimed 0.5 ms. -/
theorem C7_counterexample :
    analyze_logs exC7 = some [(1 : ℚ)/2000] ∧
    analyze_logs exC7 ≠ some [(1 : ℚ)/2] := by
  have h : analyze_logs exC7 = some [(1 : ℚ)/2000] := by
    simp +decide [analyze_logs, collectLogs, parseLine, broadcastsOf, receivedOf, exC7]
    norm_num
  refine ⟨h, ?_⟩
  rw [h]
  norm_num

/-! ### Helper lemmas: the dictionary -/

theorem dictFind?_insert {α : Type} (l : List (String × α)) (k key : String) (v : α) :
    dictFind? (dictInsert l k v) key = if k == key then some v else dictFind? l key := by
  induction l with
  | nil => simp [dictInsert, dictFind?]
  | cons hd t ih =>
      obtain ⟨k0, w⟩ := hd
      simp only [dictInsert]
      by_cases h0 : k0 = k
      · subst h0
        simp only [beq_self_eq_true, if_true]
        by_cases h1 : (k0 == key) = true
        · simp [dictFind?, h1]
        · simp [dictFind?, h1]
      · have h0' : (k0 == k) = false := beq_eq_false_iff_ne.mpr h0
        simp only [h0', Bool.false_eq_true, if_false]
        by_cases h1 : (k0 == key) = true
        · have hk0 : k0 = key := eq_of_beq h1
          subst hk0
          have hk : (k == k0) = false := beq_eq_false_iff_ne.mpr (fun e => h0 e.symm)
          simp [dictFind?, h1, hk]
        · simp [dictFind?, h1, ih]

/-! ### Helper lemmas: the cpu-rate loop (claim C6) -/

theorem auxPrev_insert (last : CpuDict) (e : PollEntry) (seg : List PollEntry)
    (name : String) :
    auxPrev (dictInsert last e.node_name (e.cpu, e.t)) seg name =
      auxPrev last (e :: seg) name := by
  simp only [auxPrev, specLastSample]
  cases hs : specLastSample seg name with
  | some v => simp
  | none =>
      simp only []
      rw [dictFind?_insert]
      by_cases h : (e.node_name == name) = true
      · simp [h]
      · simp [h]

theorem pollRunAux_rate (es : List PollEntry) :
    ∀ (last : CpuDict) (k : Nat), k < es.length →
      (pollRunAux last es).getD k 0 =
        specRate (auxPrev last (es.take k) ((es.getD k pollDefault).node_name))
          (es.getD k pollDefault) := by
  induction es with
  | nil => intro last k hk; simp at hk
  | cons e rest ih =>
      intro last k hk
      cases k with
      | zero =>
          simp [pollRunAux, cpuRateStep, auxPrev, specLastSample, specRate]
      | succ k =>
          have hk' : k < rest.length := by simpa using hk
          have step : (pollRunAux last (e :: rest)).getD (k + 1) 0 =
              (pollRunAux (dictInsert last e.node_name (e.cpu, e.t)) rest).getD k 0 := by
            simp [pollRunAux, cpuRateStep]
          rw [step, ih _ k hk']
          simp only [List.take_succ_cons, List.getD_cons_succ]
          rw [auxPrev_insert]

/-- Claim C6: for every instance and every poll tick, the derived cpu rate
equals `(counterₜ − counterₜ₋₁) / (tₜ − tₜ₋₁)` computed against that same
instance's most recent previous sample only (the shared dictionary never
mixes instances), and only when the time delta is positive; an instance's
first sample yields rate 0. -/
theorem C6_rate_derivation (es : List PollEntry) (k : Nat) (hk : k < es.length) :
    (pollRun es).getD k 0 =
      specRate (specLastSample (es.take k) ((es.getD k pollDefault).node_name))
        (es.getD k pollDefault) := by
  have h := pollRunAux_rate es [] k hk
  have hcollapse : auxPrev [] (es.take k) ((es.getD k pollDefault).node_name)
      = specLastSample (es.take k) ((es.getD k pollDefault).node_name) := by
    unfold auxPrev
    cases specLastSample (es.take k) ((es.getD k pollDefault).node_name) <;>
      simp [dictFind?]
  rw [pollRun, h, hcollapse]

/-- Witness for C6_rate_derivation on the claim's own trace: counter values
10, 25, 47 at times 0, 5, 10 derive rates 0, 3.0, 4.4. -/
theorem C6_rate_derivation_witness :
    2 < esC6.length ∧
    ((pollRun esC6).getD 2 0 =
      specRate (specLastSample (esC6.take 2) ((esC6.getD 2 pollDefault).node_name))
        (esC6.getD 2 pollDefault)) ∧
    pollRun esC6 = [0, 3.0, 4.4] :=
  ⟨by decide, C6_rate_derivation esC6 2 (by decide),
   by norm_num [pollRun, pollRunAux, cpuRateStep, dictFind?, dictInsert, esC6]⟩

/-! ### Helper lemmas: telemetry whitelist matching (claim C10) -/

theorem wordsAux_eq_nil (cs : List Char) :
    ∀ acc : List Char, wordsAux cs acc = [] →
      acc.isEmpty = true ∧ ∀ c ∈ cs, isWsChar c = true := by
  induction cs with
  | nil =>
      intro acc h
      by_cases ha : acc.isEmpty
      · exact ⟨ha, by simp⟩
      · simp [wordsAux, ha] at h
  | cons c cs ih =>
      intro acc h
      by_cases hw : isWsChar c = true
      · by_cases ha : acc.isEmpty
        · have h2 := ih [] (by simpa [wordsAux, hw, ha] using h)
          refine ⟨ha, ?_⟩
          intro x hx
          rcases List.mem_cons.mp hx with rfl | hx
          · exact hw
          · exact h2.2 x hx
        · simp [wordsAux, hw, ha] at h
      · have h2 := ih (c :: acc) (by simpa [wordsAux, hw] using h)
        exact absurd h2.1 (by simp)

theorem exists_nonWs_of_strip_ne (s : String) (h : (pyStrip s == "") = false) :
    ∃ c ∈ s.data, isWsChar c = false := by
  have h1 : pyStripL s.data ≠ [] := by
    intro he
    rw [pyStrip, he] at h
    simp at h
  rw [pyStripL] at h1
  have h2 : (s.data.dropWhile isWsChar).reverse.dropWhile isWsChar ≠ [] := by
    intro he; rw [he] at h1; simp at h1
  rw [Ne, List.dropWhile_eq_nil_iff] at h2
  push_neg at h2
  obtain ⟨c, hc, hnw⟩ := h2
  refine ⟨c, ?_, by simpa using hnw⟩
  have hmem : c ∈ s.data.dropWhile isWsChar := List.mem_reverse.mp hc
  exact (List.dropWhile_sublist _).subset hmem

theorem pySplit_ne_nil (s : String) (h : (pyStrip s == "") = false) :
    pySplit s ≠ [] := by
  intro he
  obtain ⟨c, hc, hnw⟩ := exists_nonWs_of_strip_ne s h
  have h2 := (wordsAux_eq_nil s.data [] he).2 c hc
  rw [hnw] at h2
  exact Bool.false_ne_true h2

theorem matchLine_eq (res : MetricDict) (line : String) (tok : String)
    (ht : (pySplit line).getLast? = some tok) (names : List String) :
    matchLine res line names =
      match findMatchAux line names with
      | none => Except.ok res
      | some name =>
          match parseFloat? tok with
          | some v => Except.ok (dictInsert res name v)
          | none => Except.error () := by
  induction names with
  | nil => simp [matchLine, findMatchAux]
  | cons n rest ih =>
      by_cases hs : strStartsWith line n = true
      · simp [matchLine, findMatchAux, hs, ht]
      · simp [matchLine, findMatchAux, hs, ih]

theorem parseLoop_find (lines : List String) :
    ∀ (res0 res : MetricDict), parseLoop res0 lines = Except.ok res → ∀ name,
      dictFind? res name =
        match specLastHit name lines with
        | some l => ((pySplit l).getLast?).bind parseFloat?
        | none => dictFind? res0 name := by
  induction lines with
  | nil =>
      intro res0 res h name
      simp only [parseLoop, Except.ok.injEq] at h
      subst h
      simp [specLastHit]
  | cons l rest ih =>
      intro res0 res h name
      by_cases hskip : (strStartsWith l "#" || pyStrip l == "") = true
      · rw [parseLoop, if_pos hskip] at h
        have hh : lineHit name l = false := by
          simp only [lineHit]
          rcases Bool.or_eq_true_iff.mp hskip with h1 | h1
          · simp [h1]
          · simp [h1]
        rw [ih res0 res h name]
        cases hr : specLastHit name rest <;> simp [specLastHit, hr, hh]
      · have hor : (strStartsWith l "#" || pyStrip l == "") = false :=
          Bool.eq_false_iff.mpr hskip
        have hcomp : strStartsWith l "#" = false ∧ (pyStrip l == "") = false :=
          Bool.or_eq_false_iff.mp hor
        obtain ⟨tok, ht⟩ : ∃ tok, (pySplit l).getLast? = some tok := by
          cases hl : (pySplit l).getLast? with
          | none =>
              exact absurd (List.getLast?_eq_none_iff.mp hl) (pySplit_ne_nil l hcomp.2)
          | some tok => exact ⟨tok, rfl⟩
        rw [parseLoop, if_neg hskip, matchLine_eq res0 l tok ht metric_names] at h
        cases hf : findMatchAux l metric_names with
        | none =>
            rw [hf] at h
            have hh : lineHit name l = false := by
              simp [lineHit, findMatch, hf]
            rw [ih res0 res h name]
            cases hr : specLastHit name rest <;> simp [specLastHit, hr, hh]
        | some name' =>
            rw [hf] at h
            cases hv : parseFloat? tok with
            | none => rw [hv] at h; exact absurd h (by simp)
            | some v =>
                rw [hv] at h
                rw [ih _ res h name]
                cases hr : specLastHit name rest with
                | some x => simp [specLastHit, hr]
                | none =>
                    simp only [specLastHit, hr]
                    rw [dictFind?_insert]
                    have hhit : lineHit name l = (name' == name) := by
                      simp [lineHit, findMatch, hf, hcomp.1, hcomp.2]
                    rw [hhit]
                    by_cases he : name' = name
                    · subst he
                      simp [ht, hv]
                    · have hne : (name' == name) = false := beq_eq_false_iff_ne.mpr he
                      simp [hne]

/-- Claim C10: whitelist matching in `get_resource_metrics` is by string
prefix, not exact name — whenever the line loop succeeds, the value recorded
under a whitelisted name is the parsed last whitespace-separated token of the
*last* non-comment, non-blank line whose first whitelist match is that name
(so prefix-extension lines are captured and later matches overwrite earlier
ones), and a name with no matching line has no entry. -/
theorem C10_last_match_wins (lines : List String) (res : MetricDict)
    (h : parseLoop [] lines = Except.ok res) (name : String) :
    dictFind? res name = specLastMatchValue name lines := by
  rw [parseLoop_find lines [] res h name, specLastMatchValue]
  cases hr : specLastHit name lines <;> simp [hr, dictFind?]

/-- Witness for C10_last_match_wins: on `go_goroutines 42` followed by the
strict extension `go_goroutines_gc 7`, the stored value for `go_goroutines`
is 7 — the extension line matched by prefix and overwrote the exact line. -/
theorem C10_last_match_wins_witness :
    parseLoop [] lns10 = Except.ok r10 ∧
    dictFind? r10 "go_goroutines" = specLastMatchValue "go_goroutines" lns10 ∧
    specLastMatchValue "go_goroutines" lns10 = some 7 :=
  ⟨by decide, C10_last_match_wins lns10 r10 (by decide) "go_goroutines", by decide⟩

/-! ### Helper lemmas: the event correlator (claim C7) -/

theorem filterMap_parseLine_filter (cn : String) (ls : List LogLine) :
    (ls.filter isRecordLine).filterMap (parseLine cn) = ls.filterMap (parseLine cn) := by
  induction ls with
  | nil => rfl
  | cons x t ih =>
      cases x with
      | junk raw => simp [isRecordLine, parseLine, ih]
      | record e m ts => simp [isRecordLine, parseLine, ih]

theorem collectLogs_stripJunk (cs : List (String × List LogLine)) :
    collectLogs (stripJunk cs) = collectLogs cs := by
  induction cs with
  | nil => rfl
  | cons c t ih =>
      simp only [stripJunk, List.map_cons] at ih ⊢
      simp [collectLogs, filterMap_parseLine_filter, ih]

theorem collectLogs_ne_nil_of_broadcast (cs : List (String × List LogLine))
    (b : LogEvent) (bs : List LogEvent)
    (hb : broadcastsOf (collectLogs cs) = b :: bs) : collectLogs cs ≠ [] := by
  have hmem : b ∈ broadcastsOf (collectLogs cs) := by
    rw [hb]; exact List.mem_cons_self _ _
  exact List.ne_nil_of_mem (List.mem_of_mem_filter hmem)

/-- Claim C7 (amended): `analyze_logs` silently skips unparseable lines; it
returns no data when no broadcast event or no received event with the first
broadcast's `msgId` exists; otherwise it returns, for exactly the received
events sharing the first broadcast's `msgId`, the latencies
`(receivedTimestamp − broadcastTimestamp) / 1e6` with the negative ones
discarded; on the claim's example the single returned latency is 0.0005 ms
(500 ns over 1e6), not 0.5 ms. -/
theorem C7_correlator :
    (∀ cs, analyze_logs (stripJunk cs) = analyze_logs cs) ∧
    (∀ cs, broadcastsOf (collectLogs cs) = [] → analyze_logs cs = none) ∧
    (∀ cs b bs, broadcastsOf (collectLogs cs) = b :: bs →
        receivedOf (collectLogs cs) b.msg_id = [] → analyze_logs cs = none) ∧
    (∀ cs b bs, broadcastsOf (collectLogs cs) = b :: bs →
        receivedOf (collectLogs cs) b.msg_id ≠ [] →
        analyze_logs cs = some (((receivedOf (collectLogs cs) b.msg_id).map
          (fun e => ((e.timestamp_ns - b.timestamp_ns : ℤ) : ℚ) / 1000000)).filter
            (fun q => decide (0 ≤ q)))) ∧
    analyze_logs exC7 = some [(1 : ℚ)/2000] := by
  refine ⟨?_, ?_, ?_, ?_, ?_⟩
  · intro cs
    simp only [analyze_logs, collectLogs_stripJunk]
  · intro cs hb
    by_cases hn : collectLogs cs = []
    · simp only [analyze_logs, hn, if_pos]
    · simp only [analyze_logs, if_neg hn, hb]
  · intro cs b bs hb hr
    have hn := collectLogs_ne_nil_of_broadcast cs b bs hb
    simp only [analyze_logs, if_neg hn, hb, hr, if_pos]
  · intro cs b bs hb hr
    have hn := collectLogs_ne_nil_of_broadcast cs b bs hb
    simp only [analyze_logs, if_neg hn, hb]
    rw [if_neg hr]
  · simp +decide [analyze_logs, collectLogs, parseLine, broadcastsOf, receivedOf, exC7]
    norm_num

/-- Witness for C7_correlator on the claim's example: the first broadcast is
`(msgId 7, ts 1000)`, matching received events exist, and the returned value
is the filtered latency list of exactly those events. -/
theorem C7_correlator_witness :
    broadcastsOf (collectLogs exC7) = bEx :: [] ∧
    receivedOf (collectLogs exC7) bEx.msg_id ≠ [] ∧
    analyze_logs exC7 = some (((receivedOf (collectLogs exC7) bEx.msg_id).map
      (fun e => ((e.timestamp_ns - bEx.timestamp_ns : ℤ) : ℚ) / 1000000)).filter
        (fun q => decide (0 ≤ q))) :=
  ⟨by decide, by decide, C7_correlator.2.2.2.1 exC7 bEx [] (by decide) (by decide)⟩

/-! ### Helper lemmas: cleanup (claims C2 and C4) -/

theorem filter_idem {α : Type} (p : α → Bool) (l : List α) :
    (l.filter p).filter p = l.filter p := by
  rw [List.filter_filter]
  apply List.filter_congr
  intro a _
  simp

theorem nodeCleanup_success (n : NodeInfo) (env : Env) (d : DockerState)
    (h : env.stopFails = fun _ => false) :
    (NodeInfo.cleanup n env d).1 =
      { d with containers := d.containers.filter (fun c => c.name != n.container.name) } := by
  unfold NodeInfo.cleanup
  by_cases hin : (d.containers.any fun c => c.name == n.container.name) = true
  · simp [hin, h]
  · have hin' : (d.containers.any fun c => c.name == n.container.name) = false :=
      Bool.eq_false_iff.mpr hin
    simp only [hin', Bool.false_eq_true, if_false]
    have hf : d.containers.filter (fun c => c.name != n.container.name) = d.containers := by
      apply List.filter_eq_self.mpr
      intro c hc
      have hcc : (c.name == n.container.name) = false := by
        cases hb : (c.name == n.container.name) with
        | false => rfl
        | true =>
            have hany : (d.containers.any fun c2 => c2.name == n.container.name) = true :=
              List.any_eq_true.mpr ⟨c, hc, hb⟩
            rw [hany] at hin'
            simp at hin'
      simp [bne, hcc]
    rw [hf]

theorem cleanupNodes_success (env : Env) (h : env.stopFails = fun _ => false) :
    ∀ (ns : List NodeInfo) (d : DockerState) (logs : List LogMsg),
      (cleanupNodes env ns d logs).1 =
        { d with containers := d.containers.filter (notTracked ns) } := by
  intro ns
  induction ns with
  | nil =>
      intro d logs
      show d = _
      have hf : d.containers.filter (notTracked []) = d.containers :=
        List.filter_eq_self.mpr (fun c _ => by simp [notTracked])
      rw [hf]
  | cons n rest ih =>
      intro d logs
      show (cleanupNodes env rest (NodeInfo.cleanup n env d).1
              (logs ++ (NodeInfo.cleanup n env d).2)).1 = _
      rw [ih, nodeCleanup_success n env d h]
      congr 1
      rw [List.filter_filter]
      apply List.filter_congr
      intro c _
      simp only [notTracked, List.all_cons]
      exact Bool.and_comm _ _

theorem cleanup_state (m : Mesh) (env : Env) (d : DockerState) (h : env.allSuccess) :
    (Mesh.cleanup m env d).1 =
      { containers := d.containers.filter (notTracked m.nodes),
        networks :=
          match m.network with
          | none => d.networks
          | some net => d.networks.filter (fun x => x != net) } := by
  obtain ⟨hstop, hnet⟩ := h
  cases hm : m.network with
  | none =>
      simp only [Mesh.cleanup, hm]
      rw [cleanupNodes_success env hstop]
  | some net =>
      by_cases hin : (d.networks.any fun x => x == net) = true
      · simp only [Mesh.cleanup, hm]
        rw [cleanupNodes_success env hstop]
        simp [hnet, hin]
      · have hin' : (d.networks.any fun x => x == net) = false := Bool.eq_false_iff.mpr hin
        have hf : d.networks.filter (fun x => x != net) = d.networks := by
          apply List.filter_eq_self.mpr
          intro x hx
          have hcc : (x == net) = false := by
            cases hb : (x == net) with
            | false => rfl
            | true =>
                have hany : (d.networks.any fun y => y == net) = true :=
                  List.any_eq_true.mpr ⟨x, hx, hb⟩
                rw [hany] at hin'
                simp at hin'
          simp [bne, hcc]
        simp only [Mesh.cleanup, hm]
        rw [cleanupNodes_success env hstop]
        simp [hnet, hin', hf]

theorem covered_filter_nil (d : DockerState) (ns : List NodeInfo) (h : covered d ns) :
    d.containers.filter (notTracked ns) = [] := by
  rw [List.filter_eq_nil_iff]
  intro c hc hx
  obtain ⟨n, hn, he⟩ := h c hc
  have hall := List.all_eq_true.mp hx n hn
  rw [he] at hall
  simp at hall

theorem nodeCleanup_logs_no_error (n : NodeInfo) (env : Env) (d : DockerState)
    (hstop : env.stopFails = fun _ => false) :
    ∀ l ∈ (NodeInfo.cleanup n env d).2, l.level ≠ LogLevel.error := by
  intro l hl
  unfold NodeInfo.cleanup at hl
  by_cases hin : (d.containers.any fun c => c.name == n.container.name) = true
  · rw [if_pos hin] at hl
    simp only [hstop] at hl
    simp only [Bool.false_eq_true, if_false, List.mem_singleton] at hl
    rw [hl]
    simp
  · rw [if_neg hin] at hl
    simp only [List.mem_singleton] at hl
    rw [hl]
    simp

theorem cleanupNodes_logs_no_error (env : Env) (hstop : env.stopFails = fun _ => false) :
    ∀ (ns : List NodeInfo) (d : DockerState) (logs : List LogMsg),
      (∀ l ∈ logs, l.level ≠ LogLevel.error) →
      ∀ l ∈ (cleanupNodes env ns d logs).2, l.level ≠ LogLevel.error := by
  intro ns
  induction ns with
  | nil => intro d logs hl; exact hl
  | cons n rest ih =>
      intro d logs hl
      apply ih
      intro l hl2
      rcases List.mem_append.mp hl2 with h1 | h1
      · exact hl l h1
      · exact nodeCleanup_logs_no_error n env d hstop l h1

theorem cleanup_logs_no_error (m : Mesh) (env : Env) (d : DockerState)
    (h : env.allSuccess) :
    ∀ l ∈ (Mesh.cleanup m env d).2, l.level ≠ LogLevel.error := by
  obtain ⟨hstop, hnet⟩ := h
  intro l hl
  have hbase : ∀ x ∈ [LogMsg.mk LogLevel.info "Cleaning up P2P mesh resources..."],
      x.level ≠ LogLevel.error := by
    intro x hx
    simp only [List.mem_singleton] at hx
    rw [hx]
    simp
  cases hm : m.network with
  | none =>
      simp only [Mesh.cleanup, hm] at hl
      exact cleanupNodes_logs_no_error env hstop m.nodes d _ hbase l hl
  | some net =>
      simp only [Mesh.cleanup, hm, hnet, Bool.false_eq_true, if_false] at hl
      by_cases hin : (((cleanupNodes env m.nodes d
          [LogMsg.mk LogLevel.info "Cleaning up P2P mesh resources..."]).1.networks).any
            fun x => x == net) = true
      · rw [if_pos hin] at hl
        rcases List.mem_append.mp hl with h1 | h1
        · exact cleanupNodes_logs_no_error env hstop m.nodes d _ hbase l h1
        · simp only [List.mem_singleton] at h1
          rw [h1]
          simp
      · rw [if_neg hin] at hl
        rcases List.mem_append.mp hl with h1 | h1
        · exact cleanupNodes_logs_no_error env hstop m.nodes d _ hbase l h1
        · simp only [List.mem_singleton] at h1
          rw [h1]
          simp

theorem nodeCleanup_logs_len (n : NodeInfo) (env : Env) (d : DockerState) :
    (NodeInfo.cleanup n env d).2.length = 1 := by
  unfold NodeInfo.cleanup
  split
  · split
    · rfl
    · rfl
  · rfl

theorem cleanupNodes_logs_len (env : Env) :
    ∀ (ns : List NodeInfo) (d : DockerState) (logs : List LogMsg),
      (cleanupNodes env ns d logs).2.length = logs.length + ns.length := by
  intro ns
  induction ns with
  | nil => intro d logs; rfl
  | cons n rest ih =>
      intro d logs
      show (cleanupNodes env rest _ (logs ++ (NodeInfo.cleanup n env d).2)).2.length = _
      rw [ih]
      simp [nodeCleanup_logs_len]
      omega

theorem cleanup_logs_len (m : Mesh) (env : Env) (d : DockerState) :
    (Mesh.cleanup m env d).2.length =
      1 + m.nodes.length + (if m.network.isSome then 1 else 0) := by
  cases hm : m.network with
  | none =>
      simp only [Mesh.cleanup, hm]
      rw [cleanupNodes_logs_len]
      simp
  | some net =>
      simp only [Mesh.cleanup, hm]
      split
      · split
        all_goals simp [cleanupNodes_logs_len]
      · simp [cleanupNodes_logs_len]

/-- Claim C4: `Mesh.cleanup` never raises (its translation is a total
function — every per-resource failure, `NotFound` included, is caught and
logged) and teardown never stops early: on *any* environment the cleanup
emits exactly one log record per tracked node plus one for the network, so
every resource is visited.  It is idempotent: after a first cleanup in a
normally-behaving environment, a second call leaves the external state
unchanged and emits no error-level log. -/
theorem C4_cleanup_absorbing_idempotent (m : Mesh) (env : Env) (d : DockerState)
    (h : env.allSuccess) :
    (Mesh.cleanup m env (Mesh.cleanup m env d).1).1 = (Mesh.cleanup m env d).1 ∧
    (∀ l ∈ (Mesh.cleanup m env (Mesh.cleanup m env d).1).2, l.level ≠ LogLevel.error) ∧
    (∀ (env2 : Env) (d2 : DockerState), (Mesh.cleanup m env2 d2).2.length =
        1 + m.nodes.length + (if m.network.isSome then 1 else 0)) := by
  refine ⟨?_, cleanup_logs_no_error m env _ h, fun env2 d2 => cleanup_logs_len m env2 d2⟩
  rw [cleanup_state m env (Mesh.cleanup m env d).1 h, cleanup_state m env d h]
  cases hm : m.network with
  | none => simp [filter_idem]
  | some net => simp [filter_idem]

/-- Witness for C4_cleanup_absorbing_idempotent: a second cleanup of the
deployed single-node mesh changes nothing. -/
theorem C4_cleanup_witness :
    env0.allSuccess ∧
    (Mesh.cleanup mOk0 env0 (Mesh.cleanup mOk0 env0 dOk0).1).1 =
      (Mesh.cleanup mOk0 env0 dOk0).1 :=
  ⟨⟨rfl, rfl⟩, (C4_cleanup_absorbing_idempotent mOk0 env0 dOk0 ⟨rfl, rfl⟩).1⟩

/-! ### Helper lemmas: deploy (claims C2 and C3) -/

theorem get_free_ports_eq (os : Nat → Nat) (k : Nat) :
    get_free_ports os k = Except.ok ((List.range k).map os) := by
  simp [get_free_ports]

theorem deploy_peer_fst (d d2 : DockerState) (env : Env) (img net : String)
    (mp ap : Nat) (b : Option String) :
    (deploy_peer d env img net mp ap b).1 = (deploy_peer d2 env img net mp ap b).1 := rfl

theorem deployPeersAux_nodes (env : Env) (img net pid : String) (aps mps : List Nat) :
    ∀ (is : List Nat) (d : DockerState) (ns : List NodeInfo),
      (deployPeersAux env img net pid aps mps is d ns).2 =
        ns ++ is.map (fun i =>
          { container := (deploy_peer dEmpty env img net (mps.getD (i+1) 0)
              (aps.getD (i+1) 0) (some pid)).1,
            api_port := aps.getD (i+1) 0, metrics_port := mps.getD (i+1) 0 }) := by
  intro is
  induction is with
  | nil => intro d ns; simp [deployPeersAux]
  | cons i rest ih =>
      intro d ns
      show (deployPeersAux env img net pid aps mps rest
        (deploy_peer d env img net (mps.getD (i+1) 0) (aps.getD (i+1) 0) (some pid)).2
        (ns ++ [{ container := (deploy_peer d env img net (mps.getD (i+1) 0)
                    (aps.getD (i+1) 0) (some pid)).1,
                  api_port := aps.getD (i+1) 0, metrics_port := mps.getD (i+1) 0 }])).2 = _
      rw [ih, deploy_peer_fst d dEmpty env img net (mps.getD (i+1) 0)
            (aps.getD (i+1) 0) (some pid)]
      simp

theorem deployPeersAux_networks (env : Env) (img net pid : String) (aps mps : List Nat) :
    ∀ (is : List Nat) (d : DockerState) (ns : List NodeInfo),
      (deployPeersAux env img net pid aps mps is d ns).1.networks = d.networks := by
  intro is
  induction is with
  | nil => intro d ns; rfl
  | cons i rest ih =>
      intro d ns
      show (deployPeersAux env img net pid aps mps rest _ _).1.networks = _
      rw [ih]
      rfl

theorem covered_deploy_peer (X : DockerState) (env : Env) (img net : String)
    (mp ap : Nat) (b : Option String) (ns : List NodeInfo) (h : covered X ns) :
    covered (deploy_peer X env img net mp ap b).2
      (ns ++ [{ container := (deploy_peer X env img net mp ap b).1,
                api_port := ap, metrics_port := mp }]) := by
  intro c hc
  have hc2 : c ∈ X.containers.filter
      (fun c2 => c2.name != (deploy_peer X env img net mp ap b).1.name) ++
      [(deploy_peer X env img net mp ap b).1] := hc
  rcases List.mem_append.mp hc2 with hc1 | hc1
  · obtain ⟨n, hn, he⟩ := h c (List.mem_of_mem_filter hc1)
    exact ⟨n, List.mem_append_left _ hn, he⟩
  · rw [List.mem_singleton] at hc1
    subst hc1
    exact ⟨_, List.mem_append_right _ (List.mem_singleton_self _), rfl⟩

theorem deployPeersAux_covered (env : Env) (img net pid : String) (aps mps : List Nat) :
    ∀ (is : List Nat) (d : DockerState) (ns : List NodeInfo), covered d ns →
      covered (deployPeersAux env img net pid aps mps is d ns).1
        (deployPeersAux env img net pid aps mps is d ns).2 := by
  intro is
  induction is with
  | nil => intro d ns h; exact h
  | cons i rest ih =>
      intro d ns h
      apply ih
      exact covered_deploy_peer d env img net (mps.getD (i+1) 0) (aps.getD (i+1) 0)
        (some pid) ns h

theorem deployPeersAux_covered2 (env : Env) (img net pid : String) (aps mps : List Nat)
    (is : List Nat) (d : DockerState) (ns : List NodeInfo) (h : covered d ns) :
    covered (deployPeersAux env img net pid aps mps is d ns).1
      (ns ++ is.map (fun i =>
        { container := (deploy_peer dEmpty env img net (mps.getD (i+1) 0)
            (aps.getD (i+1) 0) (some pid)).1,
          api_port := aps.getD (i+1) 0, metrics_port := mps.getD (i+1) 0 })) := by
  have h2 := deployPeersAux_covered env img net pid aps mps is d ns h
  rw [deployPeersAux_nodes] at h2
  exact h2

theorem deploy_ok_destruct (m : Mesh) (env : Env) (d : DockerState) (m2 : Mesh)
    (d2 : DockerState) (h : Mesh.deploy m env d = Except.ok (m2, d2)) :
    ∃ bn peers,
      m2.network = some m.network_name ∧
      m2.network_name = m.network_name ∧
      m2.nodes = m.nodes ++ bn :: peers ∧
      bn.container.name = BOOTSTRAP_NAME ∧
      peers.length = m.num_peers ∧
      d2.networks = d.networks.filter (fun x => x != m.network_name) ++ [m.network_name] ∧
      (covered d m.nodes → covered d2 m2.nodes) := by
  simp only [Mesh.deploy, get_free_ports_eq, create_network, build_image] at h
  split at h
  · exact absurd h (by simp)
  · split at h
    · exact absurd h (by simp)
    · simp only [Except.ok.injEq, Prod.mk.injEq] at h
      obtain ⟨h1, h2⟩ := h
      subst h1
      subst h2
      rw [deployPeersAux_nodes]
      refine ⟨_, _, rfl, rfl, (List.append_cons _ _ _).symm, rfl, by simp, ?_, ?_⟩
      · rw [deployPeersAux_networks]
        exact rfl
      · intro hcov
        exact deployPeersAux_covered2 env m.image_name m.network_name _ _ _
          (List.range m.num_peers) _ _
          (covered_deploy_peer _ env m.image_name m.network_name _ _ none m.nodes hcov)

theorem deploy_error_destruct (m : Mesh) (env : Env) (d : DockerState) (e : PyError)
    (m2 : Mesh) (d2 : DockerState)
    (h : Mesh.deploy m env d = Except.error (e, m2, d2)) :
    ∃ bn,
      m2.network = some m.network_name ∧
      m2.network_name = m.network_name ∧
      m2.nodes = m.nodes ++ [bn] ∧
      bn.container.name = BOOTSTRAP_NAME ∧
      d2.networks = d.networks.filter (fun x => x != m.network_name) ++ [m.network_name] ∧
      (covered d m.nodes → covered d2 m2.nodes) := by
  simp only [Mesh.deploy, get_free_ports_eq, create_network, build_image] at h
  split at h
  · simp only [Except.error.injEq, Prod.mk.injEq] at h
    obtain ⟨he, h1, h2⟩ := h
    subst h1
    subst h2
    refine ⟨_, rfl, rfl, rfl, rfl, rfl, ?_⟩
    intro hcov
    exact covered_deploy_peer _ env m.image_name m.network_name _ _ none m.nodes hcov
  · split at h
    · simp only [Except.error.injEq, Prod.mk.injEq] at h
      obtain ⟨he, h1, h2⟩ := h
      subst h1
      subst h2
      refine ⟨_, rfl, rfl, rfl, rfl, rfl, ?_⟩
      intro hcov
      exact covered_deploy_peer _ env m.image_name m.network_name _ _ none m.nodes hcov
    · exact absurd h (by simp)

/-- Claim C2 (amended): for every N ≥ 0, `deploy()` followed immediately by
`cleanup()` tears the external state down completely — every launched
container and the network are removed, back to the empty daemon state — and
the same holds when `deploy()` is interrupted after creating only the
bootstrap.  However the mesh object itself is *not* reset: after a successful
deploy it still tracks N + 1 instance records and the network handle, since
`cleanup` never touches `self.nodes` or `self.network`. -/
theorem C2_teardown (p : Nat) (env : Env) (h : env.allSuccess) :
    (∀ m2 d2, Mesh.deploy (mkFresh p) env dEmpty = Except.ok (m2, d2) →
        m2.nodes.length = p + 1 ∧ m2.network = some NETWORK_NAME ∧
        (Mesh.cleanup m2 env d2).1 = dEmpty) ∧
    (∀ e m2 d2, Mesh.deploy (mkFresh p) env dEmpty = Except.error (e, m2, d2) →
        (Mesh.cleanup m2 env d2).1 = dEmpty) := by
  constructor
  · intro m2 d2 hd
    obtain ⟨bn, peers, hnet, hnn, hnodes, hbn, hlen, hnets, hcov⟩ :=
      deploy_ok_destruct (mkFresh p) env dEmpty m2 d2 hd
    have hcov2 : covered d2 m2.nodes := by
      apply hcov
      intro c hc
      simp [dEmpty] at hc
    refine ⟨by simp [hnodes, hlen, mkFresh, Mesh.init], hnet, ?_⟩
    rw [cleanup_state m2 env d2 h]
    rw [covered_filter_nil d2 m2.nodes hcov2]
    rw [hnet]
    simp only []
    rw [hnets]
    simp [dEmpty, mkFresh, Mesh.init]
  · intro e m2 d2 hd
    obtain ⟨bn, hnet, hnn, hnodes, hbn, hnets, hcov⟩ :=
      deploy_error_destruct (mkFresh p) env dEmpty e m2 d2 hd
    have hcov2 : covered d2 m2.nodes := by
      apply hcov
      intro c hc
      simp [dEmpty] at hc
    rw [cleanup_state m2 env d2 h]
    rw [covered_filter_nil d2 m2.nodes hcov2]
    rw [hnet]
    simp only []
    rw [hnets]
    simp [dEmpty, mkFresh, Mesh.init]

/-- Witness for C2_teardown: the one-peer deploy under `env0` followed by
cleanup returns the daemon to the empty state. -/
theorem C2_teardown_witness :
    env0.allSuccess ∧
    Mesh.deploy (mkFresh 1) env0 dEmpty = Except.ok (mOk1, dOk1) ∧
    (mOk1.nodes.length = 1 + 1 ∧ mOk1.network = some NETWORK_NAME ∧
      (Mesh.cleanup mOk1 env0 dOk1).1 = dEmpty) :=
  ⟨⟨rfl, rfl⟩, by decide, (C2_teardown 1 env0 ⟨rfl, rfl⟩).1 mOk1 dOk1 (by decide)⟩

/-- Claim C3: the `nodes` sequence is only ever extended at the tail (never
reordered) by `deploy`, whether it succeeds or raises; on every deploy
outcome from a fresh mesh the head of `nodes` is the bootstrap record (the
container carrying the fixed reserved bootstrap name); after a successful
deploy with `num_peers = p` the sequence has length p + 1; and the accessors
satisfy `bootstrap_node = nodes[0]` (none when empty) and
`peer_nodes = nodes[1:]` on every mesh. -/
theorem C3_mesh_invariants :
    (∀ m : Mesh, m.bootstrap_node = m.nodes.head? ∧ m.peer_nodes = m.nodes.drop 1) ∧
    (∀ (m : Mesh) (env : Env) (d : DockerState) m2 d2,
        Mesh.deploy m env d = Except.ok (m2, d2) → ∃ ext, m2.nodes = m.nodes ++ ext) ∧
    (∀ (m : Mesh) (env : Env) (d : DockerState) e m2 d2,
        Mesh.deploy m env d = Except.error (e, m2, d2) → ∃ ext, m2.nodes = m.nodes ++ ext) ∧
    (∀ (p : Nat) (env : Env) m2 d2,
        Mesh.deploy (mkFresh p) env dEmpty = Except.ok (m2, d2) →
        m2.nodes.length = p + 1 ∧
        m2.nodes.head?.map (fun n => n.container.name) = some BOOTSTRAP_NAME) ∧
    (∀ (p : Nat) (env : Env) e m2 d2,
        Mesh.deploy (mkFresh p) env dEmpty = Except.error (e, m2, d2) →
        m2.nodes.map (fun n => n.container.name) = [BOOTSTRAP_NAME]) := by
  refine ⟨?_, ?_, ?_, ?_, ?_⟩
  · intro m
    constructor
    · rcases hm : m.nodes with _ | ⟨a, t⟩ <;> simp [Mesh.bootstrap_node, hm]
    · rcases hm : m.nodes with _ | ⟨a, _ | ⟨b, t⟩⟩ <;> simp [Mesh.peer_nodes, hm]
  · intro m env d m2 d2 hd
    obtain ⟨bn, peers, _, _, hnodes, _, _, _, _⟩ := deploy_ok_destruct m env d m2 d2 hd
    exact ⟨bn :: peers, hnodes⟩
  · intro m env d e m2 d2 hd
    obtain ⟨bn, _, _, hnodes, _, _, _⟩ := deploy_error_destruct m env d e m2 d2 hd
    exact ⟨[bn], hnodes⟩
  · intro p env m2 d2 hd
    obtain ⟨bn, peers, _, _, hnodes, hbn, hlen, _, _⟩ :=
      deploy_ok_destruct (mkFresh p) env dEmpty m2 d2 hd
    constructor
    · simp [hnodes, hlen, mkFresh, Mesh.init]
    · rw [hnodes]
      simp [mkFresh, Mesh.init, hbn]
  · intro p env e m2 d2 hd
    obtain ⟨bn, _, _, hnodes, hbn, _, _⟩ :=
      deploy_error_destruct (mkFresh p) env dEmpty e m2 d2 hd
    rw [hnodes]
    simp [mkFresh, Mesh.init, hbn]

/-- Witness for C3_mesh_invariants on the concrete one-peer deploy. -/
theorem C3_mesh_invariants_witness :
    Mesh.deploy (mkFresh 1) env0 dEmpty = Except.ok (mOk1, dOk1) ∧
    (mOk1.nodes.length = 1 + 1 ∧
      mOk1.nodes.head?.map (fun n => n.container.name) = some BOOTSTRAP_NAME) ∧
    (mOk1.bootstrap_node = mOk1.nodes.head? ∧ mOk1.peer_nodes = mOk1.nodes.drop 1) :=
  ⟨by decide, C3_mesh_invariants.2.2.2.1 1 env0 mOk1 dOk1 (by decide),
   C3_mesh_invariants.1 mOk1⟩

end P2PEval
